import Mathlib

/-!
# Verification of the docling wrapper scripts

Shallow embedding of the three Python CLI wrapper scripts of this repository:

* `src/apps/api/src/docling/python/docling_ocr_wrapper.py`  (namespace `OW`)
* `src/apps/api/src/docling/python/docling_wrapper.py`      (namespace `DW`)
* `src/scripts/docling_wrapper.py`                          (namespace `SW`)

External collaborators (the RapidOCR engine, PyMuPDF page rasterization and
embedded-text reading, the Docling converter, `json.loads`) are modelled as
environment data: each call site that can either return a value or raise is
represented by an explicit outcome value supplied in an environment record.
Emitted JSON objects are modelled as a record whose fields are `Option`s:
`none` means the JSON object has no such key.

Python `str.strip()` is modelled by `pyStrip` (drop leading and trailing
whitespace); y-coordinates are modelled as integers (pixel units) and OCR
confidences as rationals.
-/

/-- Python `str.strip()` on the character list: drop leading and trailing
whitespace characters. -/
def pyStripList (l : List Char) : List Char :=
  ((l.dropWhile Char.isWhitespace).reverse.dropWhile Char.isWhitespace).reverse

/-- Python `str.strip()`. -/
def pyStrip (s : String) : String :=
  String.mk (pyStripList s.data)

/-- A JSON object as printed on stdout by the wrappers.  Each field is an
`Option`: `none` models the absence of that key in the printed object.
Table and image entries come entirely from the external conversion library,
so their contents are opaque (`Unit`); only the presence and length of the
lists matter to the wrappers' own logic. -/
structure JRec where
  markdown : Option String
  tables : Option (List Unit)
  pages : Option Nat
  images : Option (List Unit)
  success : Option Bool
  error : Option String
  method : Option String
  fallback : Option String
  fields : Option Unit
  version : Option String
  docling_available : Option Bool
deriving DecidableEq

/-- The JSON object with no keys at all. -/
def JRec.empty : JRec :=
  ⟨none, none, none, none, none, none, none, none, none, none, none⟩

namespace OW

/-! ## docling_ocr_wrapper.py -/

/-- A 2D point of a bounding quadrilateral. -/
structure P2 where
  x : Int
  y : Int
deriving DecidableEq, Inhabited

/-- One OCR detection `[bbox, text, confidence]` as returned by RapidOCR:
`bbox` is the list of the four corner points `[[x1,y1],...,[x4,y4]]`. -/
structure Detection where
  bbox : List P2
  text : String
  confidence : ℚ
deriving DecidableEq

/-- `bbox[0][1]`: the y coordinate of the first (top-left) point, used both
as the sort key (`key=lambda x: x[0][0][1]`) and as `y_pos` in the loop. -/
def yKey (d : Detection) : Int :=
  d.bbox.headI.y

/-- `confidence >= min_confidence and text.strip()`: the filter applied to
each detection inside the loop. -/
def passes (minConfidence : ℚ) (d : Detection) : Bool :=
  decide (minConfidence ≤ d.confidence) && (pyStrip d.text != "")

/-- The loop state of the line-grouping pass: `page_lines`, `current_y`,
`current_line`. -/
structure GroupState where
  pageLines : List String
  currentY : Option Int
  currentLine : List String
deriving DecidableEq

/-- One iteration of `for item in sorted_result:` (lines 93-110 of
`docling_ocr_wrapper.py`). -/
def stepDetection (minConfidence : ℚ) (s : GroupState) (item : Detection) : GroupState :=
  if passes minConfidence item then
    let yPos := yKey item
    let s1 : GroupState :=
      match s.currentY with
      | some currentY =>
          if 15 < |yPos - currentY| then
            { pageLines :=
                if s.currentLine.isEmpty then s.pageLines
                else s.pageLines ++ [String.intercalate " " s.currentLine],
              currentY := some yPos,
              currentLine := [] }
          else s
      | none => { s with currentY := some yPos }
    { s1 with currentLine := s1.currentLine ++ [pyStrip item.text] }
  else s

/-- `if current_line: page_lines.append(" ".join(current_line))` after the
loop: flush the trailing buffer. -/
def flushState (s : GroupState) : List String :=
  if s.currentLine.isEmpty then s.pageLines
  else s.pageLines ++ [String.intercalate " " s.currentLine]

/-- The grouping pass over an (already sorted) detection sequence. -/
def groupSorted (minConfidence : ℚ) (dets : List Detection) : List String :=
  flushState (dets.foldl (stepDetection minConfidence) ⟨[], none, []⟩)

/-- The sort order of `sorted(detections, key=lambda x: x[0][0][1])`. -/
def leY (a b : Detection) : Prop :=
  yKey a ≤ yKey b

instance : DecidableRel leY := fun a b => inferInstanceAs (Decidable (yKey a ≤ yKey b))

instance : IsTotal Detection leY := ⟨fun a b => Int.le_total (yKey a) (yKey b)⟩

instance : IsTrans Detection leY := ⟨fun _ _ _ h h' => le_trans h h'⟩

/-- `sorted(detections, key=lambda x: x[0][0][1])`: Python's `sorted` is a
stable sort by the key, modelled by stable insertion sort. -/
def sortByY (dets : List Detection) : List Detection :=
  List.insertionSort leY dets

/-- Line reconstruction for one page: sort by the first point's y, then run
the grouping loop and flush. -/
def reconstructLines (minConfidence : ℚ) (dets : List Detection) : List String :=
  groupSorted minConfidence (sortByY dets)

/-- `f"\n## Page {page_num + 1}\n\n"`. -/
def pageHeader (pageNum : Nat) : String :=
  "\n## Page " ++ toString (pageNum + 1) ++ "\n\n"

/-- The strings appended to `all_text` for one page (lines 117-120): the
header, the lines and a trailing separator, or nothing if no line was
found. -/
def pageChunk (minConfidence : ℚ) (pageNum : Nat) (dets : List Detection) : List String :=
  let lines := reconstructLines minConfidence dets
  if lines.isEmpty then [] else pageHeader pageNum :: (lines ++ ["\n\n"])

/-- What happens on one page of the OCR loop:
* `rasterFail`: `page.get_pixmap()` / `pix.tobytes("png")` raises.  These
  calls sit OUTSIDE the inner `try`, so the exception propagates to the
  document-level handler.
* `ocrFail`: `ocr(img_bytes)` or the subsequent detection processing raises;
  caught by the inner `try`, logged, page skipped.
* `ocrResult none`: the OCR call returns a falsy / non-tuple result or falsy
  detections (`continue`).
* `ocrResult (some dets)`: the OCR call returns the detection list. -/
inductive PageEvent where
  | rasterFail
  | ocrFail
  | ocrResult (dets : Option (List Detection))
deriving DecidableEq

/-- One page of the opened PDF: its OCR behaviour and its embedded text
layer (`page.get_text()`). -/
structure Page where
  ocr : PageEvent
  text : String
deriving DecidableEq

/-- The `for page_num in range(page_count):` loop (lines 63-124), started at
page index `pageNum`.  Returns `none` when a rasterization failure escapes to
the document-level handler, otherwise `some all_text` (the accumulated list
of strings). -/
def processPages (minConfidence : ℚ) : List Page → Nat → Option (List String)
  | [], _ => some []
  | p :: rest, pageNum =>
    match p.ocr with
    | .rasterFail => none
    | .ocrFail => processPages minConfidence rest (pageNum + 1)
    | .ocrResult none => processPages minConfidence rest (pageNum + 1)
    | .ocrResult (some dets) =>
        (processPages minConfidence rest (pageNum + 1)).map
          (fun tail => pageChunk minConfidence pageNum dets ++ tail)

/-- `f"\n\n## Page {page_num + 1} (Embedded):\n{text}\n"`. -/
def embChunk (pageNum : Nat) (text : String) : String :=
  "\n\n## Page " ++ toString (pageNum + 1) ++ " (Embedded):\n" ++ text ++ "\n"

/-- The accumulation `embedded_text += ...` over the scanned pages
(lines 135-139). -/
def embeddedSampleAux : List Page → Nat → String → String
  | [], _, acc => acc
  | p :: rest, pageNum, acc =>
      embeddedSampleAux rest (pageNum + 1)
        (if pyStrip p.text != "" && decide (50 < (pyStrip p.text).length)
         then acc ++ embChunk pageNum p.text else acc)

/-- `for page_num in range(min(page_count, 3)):` building `embedded_text`. -/
def embeddedSample (pages : List Page) : String :=
  embeddedSampleAux (pages.take (min pages.length 3)) 0 ""

/-- The supplementary embedded-text block (lines 131-149).  `supplementOk`
models whether the block runs without raising (`except Exception: pass`
leaves `markdown` unchanged otherwise). -/
def supplementMarkdown (supplementOk : Bool) (pages : List Page) (markdown : String) : String :=
  if supplementOk then
    let embedded_text := embeddedSample pages
    if (pyStrip markdown).length < 200 ∧ 200 < (pyStrip embedded_text).length
    then embedded_text ++ "\n\n" ++ markdown
    else markdown
  else markdown

/-- Environment of one `convert_with_ocr` invocation: availability of the
library and the outcomes of the external calls that can raise. -/
structure OcrEnv where
  /-- `RAPIDOCR_AVAILABLE`. -/
  available : Bool
  /-- `IMPORT_ERROR` (used only when unavailable). -/
  importError : String
  /-- whether `RapidOCR()` and the first `fitz.open` succeed. -/
  initOk : Bool
  /-- `str(e)` plus traceback for an init/open failure. -/
  initError : String
  /-- `str(e)` plus traceback for a page rasterization failure. -/
  rasterError : String
  /-- whether the supplementary embedded-text block runs without raising. -/
  supplementOk : Bool
deriving DecidableEq

/-- The record of lines 39-46: RapidOCR not importable. -/
def unavailableResult (importError : String) : JRec :=
  { JRec.empty with
    markdown := some "", tables := some [], pages := some 0, images := some [],
    success := some false,
    error := some ("RapidOCR not available: " ++ importError) }

/-- The record of lines 162-169: the document-level exception handler. -/
def ocrErrorResult (e : String) : JRec :=
  { JRec.empty with
    markdown := some "", tables := some [], pages := some 0, images := some [],
    success := some false,
    error := some ("RapidOCR conversion failed: " ++ e) }

/-- `convert_with_ocr(file_path, options)` (lines 24-169).  The PDF is
abstracted to its page list, `options` to the one field the function reads
(`minConfidence`). -/
def convert_with_ocr (env : OcrEnv) (pages : List Page) (minConfidence : ℚ) : JRec :=
  if env.available = false then unavailableResult env.importError
  else if env.initOk = false then ocrErrorResult env.initError
  else
    match processPages minConfidence pages 0 with
    | none => ocrErrorResult env.rasterError
    | some all_text =>
        let markdown := String.intercalate "\n" all_text
        let markdown := supplementMarkdown env.supplementOk pages markdown
        { JRec.empty with
          markdown := some markdown, tables := some [], pages := some pages.length,
          images := some [], success := some true, method := some "rapidocr" }

/-- `f"## Page {page_num + 1}\n\n{text}\n\n"` in `extract_text_blocks`. -/
def extractChunk (pageNum : Nat) (text : String) : String :=
  "## Page " ++ toString (pageNum + 1) ++ "\n\n" ++ text ++ "\n\n"

/-- The page loop of `extract_text_blocks` (lines 186-191). -/
def extractBlocksAux : List Page → Nat → List String
  | [], _ => []
  | p :: rest, pageNum =>
      if pyStrip p.text != ""
      then extractChunk pageNum p.text :: extractBlocksAux rest (pageNum + 1)
      else extractBlocksAux rest (pageNum + 1)

/-- `extract_text_blocks(file_path)` (lines 172-208).  `openOk` models
whether `fitz.open` and the page reads succeed; `errText` is `str(e)`
otherwise. -/
def extract_text_blocks (openOk : Bool) (errText : String) (pages : List Page) : JRec :=
  if openOk then
    { JRec.empty with
      markdown := some (String.intercalate "\n" (extractBlocksAux pages 0)),
      pages := some pages.length, success := some true,
      method := some "pymupdf_embedded" }
  else
    { JRec.empty with
      markdown := some "", pages := some 0, success := some false,
      error := some errText }

/-- `not result.get("success") or len(result.get("markdown", "")) < 100`
(line 222): the condition triggering the top-level fallback. -/
def fallbackCond (result : JRec) : Bool :=
  !(result.success.getD false) || decide ((result.markdown.getD "").length < 100)

/-- Lines 226-228: replace the result by the embedded one and annotate it,
when the embedded markdown is strictly longer. -/
def applyFallback (result embedded_result : JRec) : JRec :=
  if (result.markdown.getD "").length < (embedded_result.markdown.getD "").length then
    { embedded_result with fallback := some "Used embedded text" }
  else result

/-- The JSON object finally printed by `__main__` (lines 219-230) when a
file argument was given. -/
def ocrMainResult (env : OcrEnv) (extractOk : Bool) (extractErr : String)
    (pages : List Page) : JRec :=
  let result := convert_with_ocr env pages (3/10)
  if fallbackCond result then
    applyFallback result (extract_text_blocks extractOk extractErr pages)
  else result

/-- `__main__` of `docling_ocr_wrapper.py` (lines 211-230): exit code and
the JSON document printed on stdout.  `argv` is the full `sys.argv`
(element 0 is the script name). -/
def ocr_main (env : OcrEnv) (extractOk : Bool) (extractErr : String)
    (pages : List Page) (argv : List String) : Nat × Option JRec :=
  if argv.length < 2 then
    (1, some { JRec.empty with
               error := some "Usage: python docling_ocr_wrapper.py <pdf_file>" })
  else
    (0, some (ocrMainResult env extractOk extractErr pages))

end OW

/-- Outcome of a call into the external Docling conversion pipeline that
either returns a converted document or raises with a message.  On success it
carries exactly the data the wrapper copies into its result record (table
and image entries are opaque external artifacts). -/
inductive Attempt where
  | ok (markdown : String) (tables : List Unit) (pages : Nat) (images : List Unit)
  | exn (msg : String)
deriving DecidableEq

/-- `Except.error` test for the modelled `json.loads`. -/
def errs {α : Type} : Except String α → Bool
  | .error _ => true
  | .ok _ => false

namespace DW

/-! ## apps/api/src/docling/python/docling_wrapper.py -/

/-- The record of `_error_result` (lines 155-164). -/
def dw_error_result (error : String) : JRec :=
  { JRec.empty with
    markdown := some "", tables := some [], pages := some 0, images := some [],
    success := some false, error := some error }

/-- Lines 41-48: docling not importable. -/
def unavailableResult : JRec :=
  { JRec.empty with
    markdown := some "", tables := some [], pages := some 0, images := some [],
    success := some false,
    error := some "docling not installed. Run: pip install docling" }

/-- The record returned by `_convert_with_options` (lines 146-152) on a
successful attempt. -/
def successResult : Attempt → JRec
  | .ok markdown tables pages images =>
      { JRec.empty with
        markdown := some markdown, tables := some tables, pages := some pages,
        images := some images, success := some true }
  | .exn _ => JRec.empty

/-- `"tolist" in error_msg or "NoneType" in error_msg` (line 58). -/
def retryMessage (msg : String) : Bool :=
  decide ("tolist".data <:+: msg.data) || decide ("NoneType".data <:+: msg.data)

/-- `convert_to_markdown(file_path, options)` (lines 29-67).  `attempt1` and
`attempt2` are the outcomes of the first `_convert_with_options` call and of
the retry without OCR; `ocrOpt` is `opts.get("ocr", True)`. -/
def convert_to_markdown (available : Bool) (attempt1 attempt2 : Attempt)
    (ocrOpt : Bool) : JRec :=
  if available = false then unavailableResult
  else
    match attempt1 with
    | .ok markdown tables pages images => successResult (.ok markdown tables pages images)
    | .exn error_msg =>
        if ocrOpt && retryMessage error_msg then
          match attempt2 with
          | .ok markdown tables pages images =>
              successResult (.ok markdown tables pages images)
          | .exn e2 => dw_error_result ("Conversion failed with and without OCR: " ++ e2)
        else dw_error_result ("Conversion failed: " ++ error_msg)

/-- Outcome of the conversion inside `extract_fields` (lines 187-227): the
extracted field values themselves are opaque regex output. -/
inductive ExtractAttempt where
  | ok
  | exn (msg : String)
deriving DecidableEq

/-- `extract_fields(file_path, topics)` (lines 167-227). -/
def extract_fields (available : Bool) (attempt : ExtractAttempt) : JRec :=
  if available = false then
    { JRec.empty with
      fields := some (), success := some false,
      error := some "docling not installed. Run: pip install docling" }
  else
    match attempt with
    | .ok => { JRec.empty with fields := some (), success := some true }
    | .exn e => { JRec.empty with fields := some (), success := some false, error := some e }

/-- Environment of one invocation of this wrapper's `__main__`. -/
structure MainEnv where
  available : Bool
  attempt1 : Attempt
  attempt2 : Attempt
  extractAttempt : ExtractAttempt
  /-- `json.loads(sys.argv[3])` for `convert`: the parsed options' `ocr`
  flag, or the exception text. -/
  parseOptions : String → Except String Bool
  /-- `json.loads(sys.argv[3])` for `extract`. -/
  parseTopics : String → Except String Unit

/-- `__main__` (lines 230-281): exit code and the JSON document printed on
stdout.  The whole body runs in a `try`; a caught exception prints an error
record and exits 1 (`sys.exit(1)` raises `SystemExit`, which the
`except Exception` does not catch). -/
def dw_main (env : MainEnv) (argv : List String) : Nat × Option JRec :=
  if argv.length < 2 then
    (1, some { JRec.empty with error := some "Usage: docling_wrapper.py <operation> [args]" })
  else
    let operation := argv.getD 1 ""
    if operation = "--version" then
      (0, some { JRec.empty with
                 docling_available := some env.available, version := some "1.0.0" })
    else if operation = "convert" then
      if argv.length < 3 then
        (0, some { JRec.empty with
                   error := some "Usage: docling_wrapper.py convert <file_path> [options_json]" })
      else if 3 < argv.length then
        match env.parseOptions (argv.getD 3 "") with
        | .error m => (1, some (dw_error_result m))
        | .ok ocrOpt =>
            (0, some (convert_to_markdown env.available env.attempt1 env.attempt2 ocrOpt))
      else (0, some (convert_to_markdown env.available env.attempt1 env.attempt2 true))
    else if operation = "extract" then
      if argv.length < 3 then
        (0, some { JRec.empty with
                   error := some "Usage: docling_wrapper.py extract <file_path> [topics_json]" })
      else if 3 < argv.length then
        match env.parseTopics (argv.getD 3 "") with
        | .error m => (1, some (dw_error_result m))
        | .ok _ => (0, some (extract_fields env.available env.extractAttempt))
      else (0, some (extract_fields env.available env.extractAttempt))
    else
      (0, some { JRec.empty with error := some ("Unknown operation: " ++ operation) })

end DW

namespace SW

/-! ## scripts/docling_wrapper.py -/

/-- `error_response(message)` (lines 29-31). -/
def error_response (message : String) : JRec :=
  { JRec.empty with error := some message, success := some false }

/-- Outcome of the external conversion inside this wrapper's `try`. -/
inductive SwAttempt where
  | ok (markdown : String) (tables : List Unit) (pages : Nat) (images : List Unit)
  | fileNotFound
  | exn (msg : String)
deriving DecidableEq

/-- `convert_to_markdown(file_path, options)` (lines 34-97). -/
def convert_to_markdown (available : Bool) (attempt : SwAttempt)
    (file_path : String) : JRec :=
  if available = false then
    error_response "docling not installed. Run: pip install docling"
  else
    match attempt with
    | .ok markdown tables pages images =>
        { JRec.empty with
          markdown := some markdown, tables := some tables, pages := some pages,
          images := some images, success := some true }
    | .fileNotFound => error_response ("File not found: " ++ file_path)
    | .exn e => error_response ("Conversion failed: " ++ e)

/-- `extract_fields(file_path, topics)` (lines 100-133); the `fields`
payload (markdown plus echoed topics) is opaque. -/
def extract_fields (available : Bool) (attempt : SwAttempt)
    (file_path : String) : JRec :=
  if available = false then
    error_response "docling not installed. Run: pip install docling"
  else
    match attempt with
    | .ok _ _ _ _ => { JRec.empty with fields := some (), success := some true }
    | .fileNotFound => error_response ("File not found: " ++ file_path)
    | .exn e => error_response ("Extraction failed: " ++ e)

/-- Environment of one invocation of this wrapper's `__main__`. -/
structure MainEnv where
  available : Bool
  convertAttempt : SwAttempt
  extractAttempt : SwAttempt
  parseOptions : String → Except String Unit
  parseTopics : String → Except String Unit

/-- `__main__` (lines 136-156).  There is NO top-level exception handler: a
`json.loads` failure on a malformed argument propagates, the interpreter
prints a traceback to stderr, nothing is printed to stdout (modelled as
`none`) and the process exits 1. -/
def sw_main (env : MainEnv) (argv : List String) : Nat × Option JRec :=
  if argv.length < 2 then
    (1, some (error_response "Usage: docling_wrapper.py <operation> [args]"))
  else
    let operation := argv.getD 1 ""
    if operation = "convert" then
      let file_path := if 2 < argv.length then argv.getD 2 "" else ""
      if 3 < argv.length then
        match env.parseOptions (argv.getD 3 "") with
        | .error _ => (1, none)
        | .ok _ => (0, some (convert_to_markdown env.available env.convertAttempt file_path))
      else (0, some (convert_to_markdown env.available env.convertAttempt file_path))
    else if operation = "extract" then
      let file_path := if 2 < argv.length then argv.getD 2 "" else ""
      if 3 < argv.length then
        match env.parseTopics (argv.getD 3 "") with
        | .error _ => (1, none)
        | .ok _ => (0, some (extract_fields env.available env.extractAttempt file_path))
      else (0, some (extract_fields env.available env.extractAttempt file_path))
    else
      (0, some (error_response ("Unknown operation: " ++ operation)))

end SW

/-- The amended C3 invariant: a failed result record never carries a
non-empty markdown — its `markdown` key is absent or the empty string. -/
def noFailedMarkdown (r : JRec) : Prop :=
  r.success = some false → r.markdown = none ∨ r.markdown = some ""

/-- The apps wrapper's `__main__` reaches its top-level `except` handler
(and hence exit code 1 with an error record) exactly when a `json.loads`
call on the fourth argument raises. -/
def DW.parseCrash (env : DW.MainEnv) (argv : List String) : Bool :=
  decide (2 ≤ argv.length) &&
  ((decide (argv.getD 1 "" = "convert") && decide (3 < argv.length) &&
      errs (env.parseOptions (argv.getD 3 ""))) ||
   (decide (argv.getD 1 "" = "extract") && decide (3 < argv.length) &&
      errs (env.parseTopics (argv.getD 3 ""))))

/-- The scripts wrapper's `__main__` crashes with an uncaught exception
(exit code 1, no JSON on stdout) exactly when a `json.loads` call on the
fourth argument raises. -/
def SW.parseCrash (env : SW.MainEnv) (argv : List String) : Bool :=
  decide (2 ≤ argv.length) &&
  ((decide (argv.getD 1 "" = "convert") && decide (3 < argv.length) &&
      errs (env.parseOptions (argv.getD 3 ""))) ||
   (decide (argv.getD 1 "" = "extract") && decide (3 < argv.length) &&
      errs (env.parseTopics (argv.getD 3 ""))))

/-! ## Helper lemmas about the line-grouping pass -/

namespace OW

lemma step_skip {mc : ℚ} {d : Detection} (s : GroupState)
    (h : passes mc d = false) : stepDetection mc s d = s := by
  simp [stepDetection, h]

lemma step_first {mc : ℚ} {d : Detection} {s : GroupState}
    (hp : passes mc d = true) (hcy : s.currentY = none) :
    stepDetection mc s d =
      ⟨s.pageLines, some (yKey d), s.currentLine ++ [pyStrip d.text]⟩ := by
  simp [stepDetection, hp, hcy]

lemma step_append {mc : ℚ} {d : Detection} {s : GroupState} {cy : Int}
    (hp : passes mc d = true) (hcy : s.currentY = some cy)
    (hnear : |yKey d - cy| ≤ 15) :
    stepDetection mc s d = { s with currentLine := s.currentLine ++ [pyStrip d.text] } := by
  simp [stepDetection, hp, hcy, not_lt_of_ge hnear]

lemma step_close {mc : ℚ} {d : Detection} {s : GroupState} {cy : Int}
    (hp : passes mc d = true) (hcy : s.currentY = some cy)
    (hfar : 15 < |yKey d - cy|) :
    stepDetection mc s d =
      ⟨if s.currentLine.isEmpty then s.pageLines
        else s.pageLines ++ [String.intercalate " " s.currentLine],
       some (yKey d), [pyStrip d.text]⟩ := by
  simp [stepDetection, hp, hcy, hfar]

/-- Once a line is anchored at `cy`, detections that pass the filter and stay
within 15 of the anchor are all appended to the current buffer. -/
lemma foldl_append_within (mc : ℚ) (cy : Int) :
    ∀ (l : List Detection) (s : GroupState), s.currentY = some cy →
      (∀ d ∈ l, passes mc d = true) → (∀ d ∈ l, |yKey d - cy| ≤ 15) →
      l.foldl (stepDetection mc) s =
        { s with currentLine := s.currentLine ++ l.map (fun d => pyStrip d.text) } := by
  intro l
  induction l with
  | nil => intro s _ _ _; simp
  | cons d l ih =>
      intro s hcy hp hy
      rw [List.foldl_cons,
        step_append (hp d (List.mem_cons_self d l)) hcy (hy d (List.mem_cons_self d l)),
        ih { s with currentLine := s.currentLine ++ [pyStrip d.text] } hcy
          (fun e he => hp e (List.mem_cons_of_mem d he))
          (fun e he => hy e (List.mem_cons_of_mem d he))]
      simp

lemma intercalate_singleton (s a : String) : String.intercalate s [a] = a := rfl

lemma intercalate_pair (s a b : String) : String.intercalate s [a, b] = a ++ s ++ b := rfl

/-- A detection that does not pass the filter leaves the state unchanged, so
the fold over any list equals the fold over its filtered sublist. -/
lemma foldl_filter_passes (mc : ℚ) :
    ∀ (l : List Detection) (s : GroupState),
      l.foldl (stepDetection mc) s = (l.filter (passes mc)).foldl (stepDetection mc) s
  | [], _ => rfl
  | d :: l, s => by
      by_cases h : passes mc d = true
      · rw [List.foldl_cons, List.filter_cons_of_pos h, List.foldl_cons,
          foldl_filter_passes mc l]
      · rw [List.foldl_cons, step_skip s (by simpa using h),
          List.filter_cons_of_neg (by simpa using h), foldl_filter_passes mc l]

lemma groupSorted_filter (mc : ℚ) (l : List Detection) :
    groupSorted mc l = groupSorted mc (l.filter (passes mc)) := by
  unfold groupSorted
  rw [foldl_filter_passes]

lemma orderedInsert_of_forall_rel {x : Detection} :
    ∀ {l : List Detection}, (∀ z ∈ l, leY x z) → List.orderedInsert leY x l = x :: l
  | [], _ => rfl
  | z :: zs, h => by
      simp only [List.orderedInsert, if_pos (h z (List.mem_cons_self z zs))]

/-- Filtering commutes with ordered insertion into a sorted list. -/
lemma filter_orderedInsert (p : Detection → Bool) (x : Detection) :
    ∀ (l : List Detection), List.Sorted leY l →
      (List.orderedInsert leY x l).filter p =
        if p x then List.orderedInsert leY x (l.filter p) else l.filter p
  | [], _ => by
      by_cases hx : p x <;> simp [hx]
  | y :: ys, hs => by
      have hy : ∀ z ∈ ys, leY y z := List.rel_of_sorted_cons hs
      by_cases hxy : leY x y
      · have hall : ∀ z ∈ (y :: ys).filter p, leY x z := by
          intro z hz
          rcases List.mem_cons.mp (List.mem_of_mem_filter hz) with rfl | hzys
          · exact hxy
          · exact le_trans hxy (hy z hzys)
        rw [List.orderedInsert, if_pos hxy]
        by_cases hx : p x
        · rw [if_pos hx, orderedInsert_of_forall_rel hall, List.filter_cons_of_pos hx]
        · rw [if_neg hx, List.filter_cons_of_neg (by simpa using hx)]
      · rw [List.orderedInsert, if_neg hxy]
        by_cases hpy : p y
        · rw [List.filter_cons_of_pos hpy, List.filter_cons_of_pos hpy,
            filter_orderedInsert p x ys hs.of_cons]
          by_cases hx : p x
          · rw [if_pos hx, if_pos hx, List.orderedInsert, if_neg hxy]
          · rw [if_neg hx, if_neg hx]
        · rw [List.filter_cons_of_neg (by simpa using hpy),
            List.filter_cons_of_neg (by simpa using hpy),
            filter_orderedInsert p x ys hs.of_cons]

/-- Filtering commutes with the stable insertion sort: sorting then
filtering equals filtering then sorting. -/
lemma filter_insertionSort (p : Detection → Bool) :
    ∀ (l : List Detection),
      (List.insertionSort leY l).filter p = List.insertionSort leY (l.filter p)
  | [] => rfl
  | x :: l => by
      rw [List.insertionSort,
        filter_orderedInsert p x _ (List.sorted_insertionSort leY l),
        filter_insertionSort p l, List.filter_cons]
      by_cases hx : p x
      · rw [if_pos hx, if_pos hx, List.insertionSort]
      · rw [if_neg hx, if_neg hx]

end OW

/-! ## The claims -/

/-- C1.  Line-grouping law of `convert_with_ocr`: on a filtered, y-sorted
detection sequence, a detection whose first-point y differs from the current
anchor by more than 15 closes the current line (emitted if non-empty) and
starts a new line anchored at that detection's y; a detection within 15 of
the anchor (in particular at exactly 15) is appended to the current line.
Consequently detections pairwise within 15 units of y merge into a single
line, and a delta of 16 starts a new line. -/
theorem c1_line_grouping_law :
    (∀ (mc : ℚ) (s : OW.GroupState) (d : OW.Detection) (cy : Int),
        OW.passes mc d = true → s.currentY = some cy → 15 < |OW.yKey d - cy| →
        OW.stepDetection mc s d =
          ⟨if s.currentLine.isEmpty then s.pageLines
            else s.pageLines ++ [String.intercalate " " s.currentLine],
           some (OW.yKey d), [pyStrip d.text]⟩)
  ∧ (∀ (mc : ℚ) (s : OW.GroupState) (d : OW.Detection) (cy : Int),
        OW.passes mc d = true → s.currentY = some cy → |OW.yKey d - cy| ≤ 15 →
        OW.stepDetection mc s d = { s with currentLine := s.currentLine ++ [pyStrip d.text] })
  ∧ (∀ (mc : ℚ) (dets : List OW.Detection), dets ≠ [] →
        (∀ d ∈ dets, OW.passes mc d = true) →
        dets.Pairwise (fun a b => |OW.yKey a - OW.yKey b| ≤ 15) →
        OW.groupSorted mc dets =
          [String.intercalate " " (dets.map (fun d => pyStrip d.text))])
  ∧ (∀ (mc : ℚ) (d1 d2 : OW.Detection),
        OW.passes mc d1 = true → OW.passes mc d2 = true →
        OW.yKey d2 = OW.yKey d1 + 16 →
        OW.reconstructLines mc [d1, d2] = [pyStrip d1.text, pyStrip d2.text])
  ∧ (∀ (mc : ℚ) (d1 d2 : OW.Detection),
        OW.passes mc d1 = true → OW.passes mc d2 = true →
        OW.yKey d2 = OW.yKey d1 + 15 →
        OW.reconstructLines mc [d1, d2] = [pyStrip d1.text ++ " " ++ pyStrip d2.text]) := by
  refine ⟨?_, ?_, ?_, ?_, ?_⟩
  · intro mc s d cy hp hcy hfar
    exact OW.step_close hp hcy hfar
  · intro mc s d cy hp hcy hnear
    exact OW.step_append hp hcy hnear
  · intro mc dets hne hp hpair
    match dets, hne with
    | d :: l, _ =>
      have hfirst : OW.stepDetection mc ⟨[], none, []⟩ d =
          ⟨[], some (OW.yKey d), [pyStrip d.text]⟩ :=
        OW.step_first (hp d (List.mem_cons_self d l)) rfl
      have hrest : ∀ e ∈ l, |OW.yKey e - OW.yKey d| ≤ 15 := by
        intro e he
        have := (List.pairwise_cons.mp hpair).1 e he
        rwa [abs_sub_comm] at this
      unfold OW.groupSorted
      rw [List.foldl_cons, hfirst,
        OW.foldl_append_within mc (OW.yKey d) l _ rfl
          (fun e he => hp e (List.mem_cons_of_mem d he)) hrest]
      simp [OW.flushState]
  · intro mc d1 d2 hp1 hp2 hy
    have hsort : OW.sortByY [d1, d2] = [d1, d2] := by
      have hle : OW.leY d1 d2 := by unfold OW.leY; omega
      simp [OW.sortByY, List.insertionSort, hle]
    have h1 : OW.stepDetection mc ⟨[], none, []⟩ d1 =
        ⟨[], some (OW.yKey d1), [pyStrip d1.text]⟩ :=
      OW.step_first hp1 rfl
    have h2 : OW.stepDetection mc ⟨[], some (OW.yKey d1), [pyStrip d1.text]⟩ d2 =
        ⟨[pyStrip d1.text], some (OW.yKey d2), [pyStrip d2.text]⟩ :=
      OW.step_close hp2 rfl (by rw [hy, add_sub_cancel_left]; decide)
    unfold OW.reconstructLines OW.groupSorted
    rw [hsort, List.foldl_cons, h1, List.foldl_cons, h2]
    simp [OW.flushState, OW.intercalate_singleton]
  · intro mc d1 d2 hp1 hp2 hy
    have hsort : OW.sortByY [d1, d2] = [d1, d2] := by
      have hle : OW.leY d1 d2 := by unfold OW.leY; omega
      simp [OW.sortByY, List.insertionSort, hle]
    have h1 : OW.stepDetection mc ⟨[], none, []⟩ d1 =
        ⟨[], some (OW.yKey d1), [pyStrip d1.text]⟩ :=
      OW.step_first hp1 rfl
    have h2 : OW.stepDetection mc ⟨[], some (OW.yKey d1), [pyStrip d1.text]⟩ d2 =
        ⟨[], some (OW.yKey d1), [pyStrip d1.text, pyStrip d2.text]⟩ :=
      OW.step_append hp2 rfl (by rw [hy, add_sub_cancel_left]; decide)
    unfold OW.reconstructLines OW.groupSorted
    rw [hsort, List.foldl_cons, h1, List.foldl_cons, h2]
    simp [OW.flushState, OW.intercalate_pair]

/-- C6.  Filter invariant of line reconstruction: detections below the
confidence threshold or with empty trimmed text contribute nothing (the
reconstruction of a detection list equals the reconstruction of its filtered
sublist), and filtering the y-sorted sequence yields the same input to the
grouping pass as stably sorting the filtered sequence. -/
theorem c6_filter_invariant :
    ∀ (mc : ℚ) (dets : List OW.Detection),
      OW.reconstructLines mc dets = OW.reconstructLines mc (dets.filter (OW.passes mc))
    ∧ (OW.sortByY dets).filter (OW.passes mc) = OW.sortByY (dets.filter (OW.passes mc))
    ∧ OW.reconstructLines mc dets =
        OW.groupSorted mc (OW.sortByY (dets.filter (OW.passes mc))) := by
  intro mc dets
  have h1 : OW.reconstructLines mc dets =
      OW.groupSorted mc (OW.sortByY (dets.filter (OW.passes mc))) := by
    show OW.groupSorted mc (OW.sortByY dets) = _
    rw [OW.groupSorted_filter]
    show OW.groupSorted mc ((List.insertionSort OW.leY dets).filter (OW.passes mc)) = _
    rw [OW.filter_insertionSort]
    rfl
  exact ⟨h1, OW.filter_insertionSort (OW.passes mc) dets, h1⟩

/-- C7.  Empty-page edge case: a page none of whose detections pass the
filter produces zero lines, an empty page chunk (no page header), and
contributes nothing to the document text. -/
theorem c7_empty_page :
    ∀ (mc : ℚ) (dets : List OW.Detection) (pageNum : Nat) (t : String)
      (rest : List OW.Page),
      dets.filter (OW.passes mc) = [] →
      OW.reconstructLines mc dets = []
      ∧ OW.pageChunk mc pageNum dets = []
      ∧ OW.processPages mc (⟨.ocrResult (some dets), t⟩ :: rest) pageNum =
          OW.processPages mc rest (pageNum + 1) := by
  intro mc dets pageNum t rest hf
  have hrl : OW.reconstructLines mc dets = [] := by
    show OW.groupSorted mc (OW.sortByY dets) = []
    rw [OW.groupSorted_filter]
    show OW.groupSorted mc ((List.insertionSort OW.leY dets).filter (OW.passes mc)) = []
    rw [OW.filter_insertionSort, hf]
    rfl
  have hch : OW.pageChunk mc pageNum dets = [] := by
    unfold OW.pageChunk
    rw [hrl]
    rfl
  refine ⟨hrl, hch, ?_⟩
  show (OW.processPages mc rest (pageNum + 1)).map
      (fun tail => OW.pageChunk mc pageNum dets ++ tail) =
    OW.processPages mc rest (pageNum + 1)
  rw [hch]
  cases OW.processPages mc rest (pageNum + 1) <;> simp

/-- Witness for C7: a single detection below the confidence threshold yields
no line at all. -/
theorem c7_empty_page_witness :
    OW.reconstructLines 1 [⟨[⟨0, 0⟩], "x", 0⟩] = [] :=
  (c7_empty_page 1 [⟨[⟨0, 0⟩], "x", 0⟩] 0 "" [] (by decide)).1

/-- C5.  Supplement rule A: after OCR, if the combined OCR markdown
(stripped) is shorter than 200 characters AND the embedded-text sample
(stripped) is longer than 200 characters, the embedded text is prepended to
the OCR markdown (both kept, embedded first); otherwise the markdown is
unchanged. -/
theorem c5_supplement_rule :
    ∀ (pages : List OW.Page) (markdown : String),
      ((pyStrip markdown).length < 200 →
        200 < (pyStrip (OW.embeddedSample pages)).length →
        OW.supplementMarkdown true pages markdown =
          OW.embeddedSample pages ++ "\n\n" ++ markdown)
    ∧ (¬ ((pyStrip markdown).length < 200 ∧
          200 < (pyStrip (OW.embeddedSample pages)).length) →
        OW.supplementMarkdown true pages markdown = markdown) := by
  intro pages markdown
  constructor
  · intro h1 h2
    unfold OW.supplementMarkdown
    rw [if_pos rfl, if_pos ⟨h1, h2⟩]
  · intro h
    unfold OW.supplementMarkdown
    rw [if_pos rfl, if_neg h]

set_option maxRecDepth 100000 in
/-- Witness for C5: an empty OCR markdown together with a long embedded page
text triggers the prepend. -/
theorem c5_supplement_rule_witness :
    OW.supplementMarkdown true [⟨.ocrResult none, String.mk (List.replicate 200 'a')⟩] "" =
      OW.embeddedSample [⟨.ocrResult none, String.mk (List.replicate 200 'a')⟩] ++ "\n\n" ++ "" :=
  (c5_supplement_rule [⟨.ocrResult none, String.mk (List.replicate 200 'a')⟩] "").1
    (by decide) (by decide)

namespace OW

lemma take_min_three {α : Type} (l : List α) : l.take (min l.length 3) = l.take 3 := by
  rcases Nat.le_total l.length 3 with h | h
  · rw [Nat.min_eq_left h, List.take_length, List.take_of_length_le h]
  · rw [Nat.min_eq_right h]

lemma string_foldl_append (l : List String) :
    ∀ a : String, List.foldl (fun r s => r ++ s) a l = a ++ String.join l := by
  induction l with
  | nil => intro a; exact (String.append_empty a).symm
  | cons x l ih =>
      intro a
      show List.foldl _ (a ++ x) l = _
      rw [ih (a ++ x), String.append_assoc]
      congr 1
      show x ++ _ = String.join (x :: l)
      rw [show String.join (x :: l) = List.foldl (fun r s => r ++ s) ("" ++ x) l from rfl,
        String.empty_append, ih x]

lemma join_cons (s : String) (l : List String) :
    String.join (s :: l) = s ++ String.join l := by
  rw [show String.join (s :: l) = List.foldl (fun r s => r ++ s) ("" ++ s) l from rfl,
    String.empty_append, string_foldl_append]

/-- Closed form of the `embedded_text +=` accumulation: the admitted chunks
(those whose stripped text is longer than 50 characters), joined. -/
lemma embeddedSampleAux_eq :
    ∀ (l : List Page) (n : Nat) (acc : String),
      embeddedSampleAux l n acc =
        acc ++ String.join ((l.enumFrom n).map
          (fun ip => if 50 < (pyStrip ip.2.text).length then embChunk ip.1 ip.2.text else ""))
  | [], _, acc => by simp [embeddedSampleAux, String.join]
  | p :: rest, n, acc => by
      show embeddedSampleAux rest (n + 1) _ = _
      rw [embeddedSampleAux_eq rest (n + 1)]
      show _ = acc ++ String.join (((n, p) :: rest.enumFrom (n + 1)).map _)
      rw [List.map_cons, join_cons]
      by_cases hlen : 50 < (pyStrip p.text).length
      · have hne : pyStrip p.text ≠ "" := by
          intro he
          rw [he] at hlen
          exact absurd hlen (by decide)
        have hc : (pyStrip p.text != "" && decide (50 < (pyStrip p.text).length)) = true := by
          rw [Bool.and_eq_true, bne_iff_ne, decide_eq_true_eq]
          exact ⟨hne, hlen⟩
        rw [if_pos hc, if_pos hlen, String.append_assoc]
      · have hc : (pyStrip p.text != "" && decide (50 < (pyStrip p.text).length)) = false := by
          simp [hlen]
        rw [if_neg (by simp [hc]), if_neg hlen, String.empty_append]

end OW

/-- C9.  Embedded sample admission: the supplementary embedded-text scan
reads only the first `min(pageCount, 3)` pages, and a page's text enters the
sample exactly when its stripped length is strictly greater than 50
characters (pages at or below 50 contribute nothing). -/
theorem c9_embedded_sample_admission :
    ∀ (pages : List OW.Page),
      OW.embeddedSample pages =
        String.join ((pages.take 3).enum.map
          (fun ip => if 50 < (pyStrip ip.2.text).length then OW.embChunk ip.1 ip.2.text else ""))
    ∧ OW.embeddedSample pages = OW.embeddedSample (pages.take 3) := by
  intro pages
  have h1 : OW.embeddedSample pages =
      String.join ((pages.take 3).enum.map
        (fun ip => if 50 < (pyStrip ip.2.text).length then OW.embChunk ip.1 ip.2.text else "")) := by
    unfold OW.embeddedSample
    rw [OW.take_min_three, OW.embeddedSampleAux_eq, String.empty_append]
    rfl
  refine ⟨h1, h1.trans ?_⟩
  have h2 : min (pages.take 3).length 3 = (pages.take 3).length := by
    rw [List.length_take]
    omega
  unfold OW.embeddedSample
  rw [h2, List.take_length, OW.embeddedSampleAux_eq, String.empty_append]
  rfl

/-- Witness for C1: two passing detections 16 apart give two lines, 15 apart
give one merged line. -/
theorem c1_line_grouping_law_witness :
    OW.reconstructLines 1 [⟨[⟨0, 0⟩], "hello", 1⟩, ⟨[⟨0, 16⟩], "world", 1⟩]
        = ["hello", "world"]
  ∧ OW.reconstructLines 1 [⟨[⟨0, 0⟩], "hello", 1⟩, ⟨[⟨0, 15⟩], "world", 1⟩]
        = ["hello world"] := by
  constructor
  · exact c1_line_grouping_law.2.2.2.1 1 ⟨[⟨0, 0⟩], "hello", 1⟩ ⟨[⟨0, 16⟩], "world", 1⟩
      (by decide) (by decide) (by decide)
  · exact (c1_line_grouping_law.2.2.2.2 1 ⟨[⟨0, 0⟩], "hello", 1⟩ ⟨[⟨0, 15⟩], "world", 1⟩
      (by decide) (by decide) (by decide)).trans (by decide)

/-- C2.  Top-level fallback (rule B): after the OCR pipeline returns, if the
result's success flag is false or its markdown is shorter than 100
characters, the full embedded-text extraction is consulted; the result is
replaced by the embedded result (annotated with the fallback marker) exactly
when the embedded markdown is strictly longer, and is otherwise kept
unchanged. -/
theorem c2_top_level_fallback :
    ∀ (env : OW.OcrEnv) (extractOk : Bool) (extractErr : String) (pages : List OW.Page),
      (((OW.convert_with_ocr env pages (3/10)).success = some false ∨
          ((OW.convert_with_ocr env pages (3/10)).markdown.getD "").length < 100) →
        OW.ocrMainResult env extractOk extractErr pages =
          OW.applyFallback (OW.convert_with_ocr env pages (3/10))
            (OW.extract_text_blocks extractOk extractErr pages))
    ∧ ((OW.convert_with_ocr env pages (3/10)).success = some true →
        100 ≤ ((OW.convert_with_ocr env pages (3/10)).markdown.getD "").length →
        OW.ocrMainResult env extractOk extractErr pages = OW.convert_with_ocr env pages (3/10))
    ∧ (∀ result er : JRec,
        (result.markdown.getD "").length < (er.markdown.getD "").length →
        OW.applyFallback result er = { er with fallback := some "Used embedded text" })
    ∧ (∀ result er : JRec,
        ¬ (result.markdown.getD "").length < (er.markdown.getD "").length →
        OW.applyFallback result er = result) := by
  intro env extractOk extractErr pages
  refine ⟨?_, ?_, ?_, ?_⟩
  · intro h
    have hc : OW.fallbackCond (OW.convert_with_ocr env pages (3/10)) = true := by
      rcases h with h | h
      · simp [OW.fallbackCond, h]
      · simp [OW.fallbackCond, h]
    simp only [OW.ocrMainResult, hc, if_true]
  · intro hs hl
    have hc : OW.fallbackCond (OW.convert_with_ocr env pages (3/10)) = false := by
      simp [OW.fallbackCond, hs, Nat.not_lt.mpr hl]
    simp only [OW.ocrMainResult, hc, Bool.false_eq_true, if_false]
  · intro result er h
    unfold OW.applyFallback
    rw [if_pos h]
  · intro result er h
    unfold OW.applyFallback
    rw [if_neg h]

/-- Witness for C2: an unavailable OCR engine (failed result, empty
markdown) with a readable embedded text layer is replaced by the embedded
result with the fallback annotation. -/
theorem c2_top_level_fallback_witness :
    OW.ocrMainResult ⟨false, "e", true, "", "", true⟩ true "" [⟨.ocrResult none, "sometext"⟩] =
      { OW.extract_text_blocks true "" [⟨.ocrResult none, "sometext"⟩] with
        fallback := some "Used embedded text" } :=
  ((c2_top_level_fallback ⟨false, "e", true, "", "", true⟩ true ""
      [⟨.ocrResult none, "sometext"⟩]).1 (Or.inl (by decide))).trans
    ((c2_top_level_fallback ⟨false, "e", true, "", "", true⟩ true ""
      [⟨.ocrResult none, "sometext"⟩]).2.2.1 _ _ (by decide))

/-- C10.  Fallback result shape: whenever rule B replaces the OCR result by
the embedded-text result, the emitted object has method "pymupdf_embedded"
and a fallback key but no tables and no images key, while the OCR-path
result always carries (empty) tables and images lists. -/
theorem c10_fallback_result_shape :
    ∀ (env : OW.OcrEnv) (extractOk : Bool) (extractErr : String) (pages : List OW.Page) (mc : ℚ),
      (OW.fallbackCond (OW.convert_with_ocr env pages (3/10)) = true →
        ((OW.convert_with_ocr env pages (3/10)).markdown.getD "").length <
          ((OW.extract_text_blocks extractOk extractErr pages).markdown.getD "").length →
        OW.ocrMainResult env extractOk extractErr pages =
          { OW.extract_text_blocks extractOk extractErr pages with
            fallback := some "Used embedded text" }
        ∧ (OW.ocrMainResult env extractOk extractErr pages).method = some "pymupdf_embedded"
        ∧ (OW.ocrMainResult env extractOk extractErr pages).fallback = some "Used embedded text"
        ∧ (OW.ocrMainResult env extractOk extractErr pages).tables = none
        ∧ (OW.ocrMainResult env extractOk extractErr pages).images = none)
    ∧ (OW.convert_with_ocr env pages mc).tables = some []
    ∧ (OW.convert_with_ocr env pages mc).images = some [] := by
  intro env extractOk extractErr pages mc
  refine ⟨?_, ?_, ?_⟩
  · intro hc hlt
    have heq : OW.ocrMainResult env extractOk extractErr pages =
        { OW.extract_text_blocks extractOk extractErr pages with
          fallback := some "Used embedded text" } := by
      simp only [OW.ocrMainResult, hc, if_true]
      unfold OW.applyFallback
      rw [if_pos hlt]
    have hok : extractOk = true := by
      by_contra hok
      have hext : OW.extract_text_blocks extractOk extractErr pages =
          { JRec.empty with
            markdown := some "", pages := some 0, success := some false,
            error := some extractErr } := by
        unfold OW.extract_text_blocks
        rw [if_neg hok]
      rw [hext] at hlt
      exact absurd hlt (by simp [JRec.empty])
    have hmethod : (OW.extract_text_blocks extractOk extractErr pages).method =
        some "pymupdf_embedded" := by
      unfold OW.extract_text_blocks
      rw [if_pos hok]
    have htab : (OW.extract_text_blocks extractOk extractErr pages).tables = none := by
      unfold OW.extract_text_blocks
      rw [if_pos hok]
      rfl
    have himg : (OW.extract_text_blocks extractOk extractErr pages).images = none := by
      unfold OW.extract_text_blocks
      rw [if_pos hok]
      rfl
    rw [heq]
    exact ⟨rfl, hmethod, rfl, htab, himg⟩
  · show (OW.convert_with_ocr env pages mc).tables = some []
    unfold OW.convert_with_ocr
    split
    · rfl
    split
    · rfl
    split <;> rfl
  · show (OW.convert_with_ocr env pages mc).images = some []
    unfold OW.convert_with_ocr
    split
    · rfl
    split
    · rfl
    split <;> rfl

/-- Witness for C10: the replaced result of the C2 scenario indeed carries
the embedded method tag and no tables or images key. -/
theorem c10_fallback_result_shape_witness :
    (OW.ocrMainResult ⟨false, "e", true, "", "", true⟩ true ""
        [⟨.ocrResult none, "sometext"⟩]).method = some "pymupdf_embedded"
  ∧ (OW.ocrMainResult ⟨false, "e", true, "", "", true⟩ true ""
        [⟨.ocrResult none, "sometext"⟩]).tables = none :=
  have h := (c10_fallback_result_shape ⟨false, "e", true, "", "", true⟩ true ""
      [⟨.ocrResult none, "sometext"⟩] 1).1 (by decide) (by decide)
  ⟨h.2.1, h.2.2.2.1⟩

namespace OW

/-- A page whose OCR call fails (inner `try`) is skipped exactly like a page
with an empty OCR result: all other pages are processed, with unchanged page
numbering. -/
lemma processPages_skip (mc : ℚ) (p : Page) (hp : p.ocr = .ocrFail) :
    ∀ (pre post : List Page) (n : Nat),
      processPages mc (pre ++ p :: post) n =
        processPages mc (pre ++ (⟨.ocrResult none, p.text⟩ : Page) :: post) n := by
  intro pre
  induction pre with
  | nil =>
      intro post n
      show processPages mc (p :: post) n = _
      simp only [List.nil_append, processPages, hp]
  | cons q pre ih =>
      intro post n
      cases hq : q.ocr with
      | rasterFail => simp only [List.cons_append, processPages, hq]
      | ocrFail => simp only [List.cons_append, processPages, hq]; exact ih post (n + 1)
      | ocrResult o =>
          cases o with
          | none => simp only [List.cons_append, processPages, hq]; exact ih post (n + 1)
          | some dets =>
              simp only [List.cons_append, processPages, hq]
              exact congrArg _ (ih post (n + 1))

/-- Without any rasterization failure the page loop never reaches the
document-level handler. -/
lemma processPages_some (mc : ℚ) :
    ∀ (ps : List Page) (n : Nat), (∀ q ∈ ps, q.ocr ≠ .rasterFail) →
      ∃ l, processPages mc ps n = some l := by
  intro ps
  induction ps with
  | nil => intro n _; exact ⟨[], rfl⟩
  | cons q ps ih =>
      intro n h
      cases hq : q.ocr with
      | rasterFail => exact absurd hq (h q (List.mem_cons_self q ps))
      | ocrFail =>
          simpa [processPages, hq] using
            ih (n + 1) (fun e he => h e (List.mem_cons_of_mem q he))
      | ocrResult o =>
          cases o with
          | none =>
              simpa [processPages, hq] using
                ih (n + 1) (fun e he => h e (List.mem_cons_of_mem q he))
          | some dets =>
              obtain ⟨l, hl⟩ := ih (n + 1) (fun e he => h e (List.mem_cons_of_mem q he))
              refine ⟨pageChunk mc n dets ++ l, ?_⟩
              simp [processPages, hq, hl]

/-- The embedded-text sample depends only on the pages' text layers. -/
lemma embeddedSampleAux_congr :
    ∀ (l l' : List Page), l.map Page.text = l'.map Page.text →
      ∀ (n : Nat) (acc : String), embeddedSampleAux l n acc = embeddedSampleAux l' n acc := by
  intro l
  induction l with
  | nil =>
      intro l' h n acc
      cases l' with
      | nil => rfl
      | cons q l2 => simp at h
  | cons p l ih =>
      intro l' h n acc
      cases l' with
      | nil => simp at h
      | cons q l2 =>
          simp only [List.map_cons, List.cons.injEq] at h
          obtain ⟨ht, hrest⟩ := h
          show embeddedSampleAux l (n + 1) _ = embeddedSampleAux l2 (n + 1) _
          rw [ht, ih l2 hrest]

lemma embeddedSample_congr (l l' : List Page) (h : l.map Page.text = l'.map Page.text) :
    embeddedSample l = embeddedSample l' := by
  have hlen : l.length = l'.length := by
    have h2 := congrArg List.length h
    simpa using h2
  unfold embeddedSample
  rw [hlen]
  apply embeddedSampleAux_congr
  rw [List.map_take, List.map_take, h]

lemma supplementMarkdown_congr (ok : Bool) (l l' : List Page) (markdown : String)
    (h : embeddedSample l = embeddedSample l') :
    supplementMarkdown ok l markdown = supplementMarkdown ok l' markdown := by
  unfold supplementMarkdown
  rw [h]

end OW

/-- C4 counterexample.  The claim includes page rasterization among the
per-page failures that are skipped, but `page.get_pixmap()` sits outside the
inner `try`: a rasterization failure on a single page reaches the
document-level handler and the result has `success == false`, not `true`. -/
theorem c4_counterexample :
    (OW.convert_with_ocr ⟨true, "", true, "", "pixmap failed", true⟩
        [⟨.rasterFail, ""⟩] 1).success = some false
  ∧ (OW.convert_with_ocr ⟨true, "", true, "", "pixmap failed", true⟩
        [⟨.rasterFail, ""⟩] 1).success ≠ some true := by
  constructor
  · rfl
  · decide

/-- C4 (amended).  Per-page failure isolation holds for failures of the OCR
engine call and the subsequent detection processing (the inner `try`): such
a page is skipped, every other page is still processed with unchanged
numbering, the result is exactly the one obtained if the page had produced
no detections, and — provided no page fails rasterization — the document
result still has `success == true`.  Rasterization failures, by contrast,
abort the document. -/
theorem c4_page_failure_isolation :
    ∀ (env : OW.OcrEnv) (mc : ℚ) (pre post : List OW.Page) (p : OW.Page),
      p.ocr = .ocrFail →
      (OW.convert_with_ocr env (pre ++ p :: post) mc =
        OW.convert_with_ocr env (pre ++ (⟨.ocrResult none, p.text⟩ : OW.Page) :: post) mc)
      ∧ (env.available = true → env.initOk = true →
          (∀ q ∈ pre ++ p :: post, q.ocr ≠ .rasterFail) →
          (OW.convert_with_ocr env (pre ++ p :: post) mc).success = some true) := by
  intro env mc pre post p hp
  constructor
  · have hmapt : (pre ++ p :: post).map OW.Page.text =
        (pre ++ (⟨.ocrResult none, p.text⟩ : OW.Page) :: post).map OW.Page.text := by
      simp
    have hpp := OW.processPages_skip mc p hp pre post 0
    have hlen : (pre ++ p :: post).length =
        (pre ++ (⟨.ocrResult none, p.text⟩ : OW.Page) :: post).length := by
      simp
    have hemb := OW.embeddedSample_congr _ _ hmapt
    by_cases ha : env.available = false
    · simp [OW.convert_with_ocr, ha]
    · by_cases hi : env.initOk = false
      · simp [OW.convert_with_ocr, ha, hi]
      · cases hpp2 : OW.processPages mc (pre ++ (⟨.ocrResult none, p.text⟩ : OW.Page) :: post) 0 with
        | none =>
            simp [OW.convert_with_ocr, ha, hi, hpp.trans hpp2, hpp2]
        | some l =>
            simp only [OW.convert_with_ocr, ha, hi, hpp.trans hpp2, hpp2, if_neg]
            rw [OW.supplementMarkdown_congr env.supplementOk _ _ (String.intercalate "\n" l) hemb]
            simp
  · intro ha hi hnoraster
    obtain ⟨l, hl⟩ := OW.processPages_some mc (pre ++ p :: post) 0 hnoraster
    simp [OW.convert_with_ocr, ha, hi, hl]

/-- Witness for C4 (amended): a document whose only page fails inside the
OCR call behaves exactly like one whose page produced no detections, and
still succeeds. -/
theorem c4_page_failure_isolation_witness :
    (OW.convert_with_ocr ⟨true, "", true, "", "", true⟩ [⟨.ocrFail, ""⟩] 1 =
      OW.convert_with_ocr ⟨true, "", true, "", "", true⟩ [⟨.ocrResult none, ""⟩] 1)
  ∧ (OW.convert_with_ocr ⟨true, "", true, "", "", true⟩ [⟨.ocrFail, ""⟩] 1).success = some true := by
  have h := c4_page_failure_isolation ⟨true, "", true, "", "", true⟩ 1 [] [] ⟨.ocrFail, ""⟩ rfl
  exact ⟨h.1, h.2 rfl rfl (by decide)⟩

namespace OW

lemma convert_with_ocr_noFailedMarkdown (env : OcrEnv) (pages : List Page) (mc : ℚ) :
    noFailedMarkdown (convert_with_ocr env pages mc) := by
  unfold noFailedMarkdown convert_with_ocr
  split
  · intro _; right; rfl
  split
  · intro _; right; rfl
  split
  · intro _; right; rfl
  · intro hfail
    exact absurd hfail (by simp)

lemma extract_text_blocks_noFailedMarkdown (openOk : Bool) (errText : String)
    (pages : List Page) :
    noFailedMarkdown (extract_text_blocks openOk errText pages) := by
  unfold noFailedMarkdown extract_text_blocks
  split
  · intro hfail
    exact absurd hfail (by simp)
  · intro _; right; rfl

lemma applyFallback_noFailedMarkdown {result er : JRec}
    (h1 : noFailedMarkdown result) (h2 : noFailedMarkdown er) :
    noFailedMarkdown (applyFallback result er) := by
  unfold applyFallback
  split
  · intro hfail
    exact h2 hfail
  · exact h1

lemma ocrMainResult_noFailedMarkdown (env : OcrEnv) (extractOk : Bool)
    (extractErr : String) (pages : List Page) :
    noFailedMarkdown (ocrMainResult env extractOk extractErr pages) := by
  unfold ocrMainResult
  show noFailedMarkdown
    (if fallbackCond (convert_with_ocr env pages (3/10)) = true then
      applyFallback (convert_with_ocr env pages (3/10))
        (extract_text_blocks extractOk extractErr pages)
     else convert_with_ocr env pages (3/10))
  split
  · exact applyFallback_noFailedMarkdown
      (convert_with_ocr_noFailedMarkdown env pages (3/10))
      (extract_text_blocks_noFailedMarkdown extractOk extractErr pages)
  · exact convert_with_ocr_noFailedMarkdown env pages (3/10)

lemma ocr_main_noFailedMarkdown (env : OcrEnv) (extractOk : Bool) (extractErr : String)
    (pages : List Page) (argv : List String) (r : JRec) :
    (ocr_main env extractOk extractErr pages argv).2 = some r → noFailedMarkdown r := by
  intro hr
  unfold ocr_main at hr
  split at hr
  · injection hr with h
    subst h
    intro hfail
    exact absurd hfail (by simp [JRec.empty])
  · injection hr with h
    subst h
    exact ocrMainResult_noFailedMarkdown env extractOk extractErr pages

end OW

namespace DW

lemma convert_to_markdown_noFailedMarkdown (available : Bool) (a1 a2 : Attempt)
    (ocrOpt : Bool) :
    noFailedMarkdown (convert_to_markdown available a1 a2 ocrOpt) := by
  unfold noFailedMarkdown convert_to_markdown
  split
  · intro _; right; rfl
  split
  · intro hfail; exact absurd hfail (by simp [successResult])
  split
  · split
    · intro hfail; exact absurd hfail (by simp [successResult])
    · intro _; right; rfl
  · intro _; right; rfl

lemma extract_fields_noFailedMarkdown (available : Bool) (ea : ExtractAttempt) :
    noFailedMarkdown (extract_fields available ea) := by
  unfold noFailedMarkdown extract_fields
  split
  · intro _; left; rfl
  split
  · intro hfail; exact absurd hfail (by simp [JRec.empty])
  · intro _; left; rfl

lemma dw_main_noFailedMarkdown (env : MainEnv) (argv : List String) (r : JRec) :
    (dw_main env argv).2 = some r → noFailedMarkdown r := by
  intro hr
  by_cases h2 : argv.length < 2
  · simp only [dw_main, if_pos h2, Option.some.injEq] at hr
    subst hr
    intro hfail
    exact absurd hfail (by simp [JRec.empty])
  · by_cases hv : argv.getD 1 "" = "--version"
    · simp only [dw_main, if_neg h2, if_pos hv, Option.some.injEq] at hr
      subst hr
      intro hfail
      exact absurd hfail (by simp [JRec.empty])
    · by_cases hc : argv.getD 1 "" = "convert"
      · by_cases h3 : argv.length < 3
        · simp only [dw_main, if_neg h2, if_neg hv, if_pos hc, if_pos h3,
            Option.some.injEq] at hr
          subst hr
          intro hfail
          exact absurd hfail (by simp [JRec.empty])
        · by_cases h4 : 3 < argv.length
          · cases hp : env.parseOptions (argv.getD 3 "") with
            | error m =>
                simp only [dw_main, if_neg h2, if_neg hv, if_pos hc, if_neg h3,
                  if_pos h4, hp, Option.some.injEq] at hr
                subst hr
                intro _; right; rfl
            | ok b =>
                simp only [dw_main, if_neg h2, if_neg hv, if_pos hc, if_neg h3,
                  if_pos h4, hp, Option.some.injEq] at hr
                subst hr
                exact convert_to_markdown_noFailedMarkdown env.available env.attempt1
                  env.attempt2 b
          · simp only [dw_main, if_neg h2, if_neg hv, if_pos hc, if_neg h3,
              if_neg h4, Option.some.injEq] at hr
            subst hr
            exact convert_to_markdown_noFailedMarkdown env.available env.attempt1
              env.attempt2 true
      · by_cases he : argv.getD 1 "" = "extract"
        · by_cases h3 : argv.length < 3
          · simp only [dw_main, if_neg h2, if_neg hv, if_neg hc, if_pos he, if_pos h3,
              Option.some.injEq] at hr
            subst hr
            intro hfail
            exact absurd hfail (by simp [JRec.empty])
          · by_cases h4 : 3 < argv.length
            · cases hp : env.parseTopics (argv.getD 3 "") with
              | error m =>
                  simp only [dw_main, if_neg h2, if_neg hv, if_neg hc, if_pos he,
                    if_neg h3, if_pos h4, hp, Option.some.injEq] at hr
                  subst hr
                  intro _; right; rfl
              | ok u =>
                  simp only [dw_main, if_neg h2, if_neg hv, if_neg hc, if_pos he,
                    if_neg h3, if_pos h4, hp, Option.some.injEq] at hr
                  subst hr
                  exact extract_fields_noFailedMarkdown env.available env.extractAttempt
            · simp only [dw_main, if_neg h2, if_neg hv, if_neg hc, if_pos he,
                if_neg h3, if_neg h4, Option.some.injEq] at hr
              subst hr
              exact extract_fields_noFailedMarkdown env.available env.extractAttempt
        · simp only [dw_main, if_neg h2, if_neg hv, if_neg hc, if_neg he,
            Option.some.injEq] at hr
          subst hr
          intro hfail
          exact absurd hfail (by simp [JRec.empty])

end DW

namespace SW

lemma sw_convert_to_markdown_noFailedMarkdown (available : Bool) (attempt : SwAttempt)
    (file_path : String) :
    noFailedMarkdown (convert_to_markdown available attempt file_path) := by
  unfold noFailedMarkdown convert_to_markdown error_response
  split
  · intro _; left; rfl
  split
  · intro hfail; exact absurd hfail (by simp [JRec.empty])
  · intro _; left; rfl
  · intro _; left; rfl

lemma sw_extract_fields_noFailedMarkdown (available : Bool) (attempt : SwAttempt)
    (file_path : String) :
    noFailedMarkdown (extract_fields available attempt file_path) := by
  unfold noFailedMarkdown extract_fields error_response
  split
  · intro _; left; rfl
  split
  · intro hfail; exact absurd hfail (by simp [JRec.empty])
  · intro _; left; rfl
  · intro _; left; rfl

lemma error_response_markdown (message : String) :
    (error_response message).markdown = none := rfl

lemma sw_main_noFailedMarkdown (env : MainEnv) (argv : List String) (r : JRec) :
    (sw_main env argv).2 = some r → noFailedMarkdown r := by
  intro hr
  by_cases h2 : argv.length < 2
  · simp only [sw_main, if_pos h2, Option.some.injEq] at hr
    subst hr
    intro _; left; rfl
  · by_cases hc : argv.getD 1 "" = "convert"
    · by_cases h4 : 3 < argv.length
      · cases hp : env.parseOptions (argv.getD 3 "") with
        | error m =>
            simp only [sw_main, if_neg h2, if_pos hc, if_pos h4, hp] at hr
            exact absurd hr (by simp)
        | ok u =>
            simp only [sw_main, if_neg h2, if_pos hc, if_pos h4, hp,
              Option.some.injEq] at hr
            subst hr
            exact sw_convert_to_markdown_noFailedMarkdown env.available env.convertAttempt _
      · simp only [sw_main, if_neg h2, if_pos hc, if_neg h4, Option.some.injEq] at hr
        subst hr
        exact sw_convert_to_markdown_noFailedMarkdown env.available env.convertAttempt _
    · by_cases he : argv.getD 1 "" = "extract"
      · by_cases h4 : 3 < argv.length
        · cases hp : env.parseTopics (argv.getD 3 "") with
          | error m =>
              simp only [sw_main, if_neg h2, if_neg hc, if_pos he, if_pos h4, hp] at hr
              exact absurd hr (by simp)
          | ok u =>
              simp only [sw_main, if_neg h2, if_neg hc, if_pos he, if_pos h4, hp,
                Option.some.injEq] at hr
              subst hr
              exact sw_extract_fields_noFailedMarkdown env.available env.extractAttempt _
        · simp only [sw_main, if_neg h2, if_neg hc, if_pos he, if_neg h4,
            Option.some.injEq] at hr
          subst hr
          exact sw_extract_fields_noFailedMarkdown env.available env.extractAttempt _
      · simp only [sw_main, if_neg h2, if_neg hc, if_neg he, Option.some.injEq] at hr
        subst hr
        intro _; left; rfl

end SW

/-- C3 counterexample.  The scripts wrapper emits records built by
`error_response`, which carry `success: false` but NO markdown key at all:
the unknown-operation record printed by its `__main__` has `success == false`
and its markdown is not the empty string (the key is absent). -/
theorem c3_counterexample :
    (SW.sw_main ⟨true, .ok "m" [] 1 [], .ok "m" [] 1 [], fun _ => .ok (), fun _ => .ok ()⟩
        ["docling_wrapper.py", "bogus"]).2 =
      some (SW.error_response ("Unknown operation: " ++ "bogus"))
  ∧ (SW.error_response ("Unknown operation: " ++ "bogus")).success = some false
  ∧ (SW.error_response ("Unknown operation: " ++ "bogus")).markdown ≠ some ""
  ∧ (SW.error_response ("Unknown operation: " ++ "bogus")).markdown = none := by
  refine ⟨by decide, rfl, by decide, rfl⟩

/-- C3 (amended).  Every result record emitted by any operation of any of
the three wrappers with `success == false` never carries a non-empty
markdown: its markdown key is either absent (the scripts wrapper's
`error_response` records and both wrappers' `extract_fields` failures) or
the empty string. -/
theorem c3_failed_markdown_empty :
    ∀ (env : OW.OcrEnv) (extractOk : Bool) (extractErr : String) (pages : List OW.Page)
      (mc : ℚ) (argv : List String) (avail ocrOpt : Bool) (a1 a2 : Attempt)
      (ea : DW.ExtractAttempt) (denv : DW.MainEnv) (sa : SW.SwAttempt) (fp : String)
      (senv : SW.MainEnv) (r : JRec),
      noFailedMarkdown (OW.convert_with_ocr env pages mc)
    ∧ noFailedMarkdown (OW.extract_text_blocks extractOk extractErr pages)
    ∧ noFailedMarkdown (OW.ocrMainResult env extractOk extractErr pages)
    ∧ ((OW.ocr_main env extractOk extractErr pages argv).2 = some r → noFailedMarkdown r)
    ∧ noFailedMarkdown (DW.convert_to_markdown avail a1 a2 ocrOpt)
    ∧ noFailedMarkdown (DW.extract_fields avail ea)
    ∧ ((DW.dw_main denv argv).2 = some r → noFailedMarkdown r)
    ∧ noFailedMarkdown (SW.convert_to_markdown avail sa fp)
    ∧ noFailedMarkdown (SW.extract_fields avail sa fp)
    ∧ ((SW.sw_main senv argv).2 = some r → noFailedMarkdown r) := by
  intro env extractOk extractErr pages mc argv avail ocrOpt a1 a2 ea denv sa fp senv r
  exact ⟨OW.convert_with_ocr_noFailedMarkdown env pages mc,
    OW.extract_text_blocks_noFailedMarkdown extractOk extractErr pages,
    OW.ocrMainResult_noFailedMarkdown env extractOk extractErr pages,
    OW.ocr_main_noFailedMarkdown env extractOk extractErr pages argv r,
    DW.convert_to_markdown_noFailedMarkdown avail a1 a2 ocrOpt,
    DW.extract_fields_noFailedMarkdown avail ea,
    DW.dw_main_noFailedMarkdown denv argv r,
    SW.sw_convert_to_markdown_noFailedMarkdown avail sa fp,
    SW.sw_extract_fields_noFailedMarkdown avail sa fp,
    SW.sw_main_noFailedMarkdown senv argv r⟩

/-- Witness for C3 (amended): a failed OCR conversion (engine unavailable)
indeed has empty markdown. -/
theorem c3_failed_markdown_empty_witness :
    (OW.convert_with_ocr ⟨false, "x", true, "", "", true⟩ [] 1).markdown = none ∨
    (OW.convert_with_ocr ⟨false, "x", true, "", "", true⟩ [] 1).markdown = some "" :=
  (c3_failed_markdown_empty ⟨false, "x", true, "", "", true⟩ true "" [] 1 []
      true true (.exn "e") (.exn "e") .ok
      ⟨true, .exn "e", .exn "e", .ok, fun _ => .ok true, fun _ => .ok ()⟩
      (.exn "e") ""
      ⟨true, .exn "e", .exn "e", fun _ => .ok (), fun _ => .ok ()⟩
      JRec.empty).1 (by decide)


namespace OW

lemma ocr_main_exit (env : OcrEnv) (extractOk : Bool) (extractErr : String)
    (pages : List Page) (argv : List String) :
    (ocr_main env extractOk extractErr pages argv).1 = (if argv.length < 2 then 1 else 0)
    ∧ (ocr_main env extractOk extractErr pages argv).2.isSome = true := by
  by_cases h2 : argv.length < 2
  · constructor
    · rw [if_pos h2]
      simp only [ocr_main]
      rw [if_pos h2]
    · simp only [ocr_main]
      rw [if_pos h2]
      rfl
  · constructor
    · rw [if_neg h2]
      simp only [ocr_main]
      rw [if_neg h2]
    · simp only [ocr_main]
      rw [if_neg h2]
      rfl

end OW

namespace DW

lemma parseCrash_false_of_ops (env : MainEnv) (argv : List String)
    (hcv : ¬ argv.getD 1 "" = "convert") (hce : ¬ argv.getD 1 "" = "extract") :
    parseCrash env argv = false := by
  simp only [parseCrash, decide_eq_false hcv, decide_eq_false hce,
    Bool.false_and, Bool.or_false, Bool.and_false]

lemma parseCrash_false_of_len (env : MainEnv) (argv : List String)
    (h4 : ¬ 3 < argv.length) :
    parseCrash env argv = false := by
  simp only [parseCrash, decide_eq_false h4, Bool.and_false, Bool.false_and,
    Bool.or_false]

lemma parseCrash_false_convert_ok (env : MainEnv) (argv : List String) (b : Bool)
    (hc : argv.getD 1 "" = "convert")
    (hp : env.parseOptions (argv.getD 3 "") = .ok b) :
    parseCrash env argv = false := by
  have hce : ¬ argv.getD 1 "" = "extract" := by rw [hc]; decide
  simp only [parseCrash, hp, errs, decide_eq_false hce, Bool.and_false,
    Bool.false_and, Bool.or_false]

lemma parseCrash_true_convert (env : MainEnv) (argv : List String) (m : String)
    (h2' : 2 ≤ argv.length) (hc : argv.getD 1 "" = "convert") (h4 : 3 < argv.length)
    (hp : env.parseOptions (argv.getD 3 "") = .error m) :
    parseCrash env argv = true := by
  simp only [parseCrash, decide_eq_true h2', decide_eq_true hc, decide_eq_true h4,
    hp, errs, Bool.true_and, Bool.true_or, Bool.and_true]

lemma parseCrash_true_extract (env : MainEnv) (argv : List String) (m : String)
    (h2' : 2 ≤ argv.length) (he : argv.getD 1 "" = "extract") (h4 : 3 < argv.length)
    (hp : env.parseTopics (argv.getD 3 "") = .error m) :
    parseCrash env argv = true := by
  have hcv : ¬ argv.getD 1 "" = "convert" := by rw [he]; decide
  simp only [parseCrash, decide_eq_true h2', decide_eq_false hcv, decide_eq_true he,
    decide_eq_true h4, hp, errs, Bool.false_and, Bool.false_or, Bool.true_and,
    Bool.and_true]

lemma dw_main_exit (env : MainEnv) (argv : List String) :
    (dw_main env argv).1 =
      (if argv.length < 2 ∨ parseCrash env argv = true then 1 else 0)
    ∧ (dw_main env argv).2.isSome = true := by
  by_cases h2 : argv.length < 2
  · constructor
    · rw [if_pos (Or.inl h2)]
      simp only [dw_main]
      rw [if_pos h2]
    · simp only [dw_main]
      rw [if_pos h2]
      rfl
  · have h2' : 2 ≤ argv.length := by omega
    by_cases hv : argv.getD 1 "" = "--version"
    · have hcv : ¬ argv.getD 1 "" = "convert" := by rw [hv]; decide
      have hce : ¬ argv.getD 1 "" = "extract" := by rw [hv]; decide
      have hcrash := parseCrash_false_of_ops env argv hcv hce
      constructor
      · rw [if_neg (not_or.mpr ⟨h2, by simp [hcrash]⟩)]
        simp only [dw_main]
        rw [if_neg h2, if_pos hv]
      · simp only [dw_main]
        rw [if_neg h2, if_pos hv]
        rfl
    · by_cases hc : argv.getD 1 "" = "convert"
      · by_cases h3 : argv.length < 3
        · have hcrash := parseCrash_false_of_len env argv (by omega)
          constructor
          · rw [if_neg (not_or.mpr ⟨h2, by simp [hcrash]⟩)]
            simp only [dw_main]
            rw [if_neg h2, if_neg hv, if_pos hc, if_pos h3]
          · simp only [dw_main]
            rw [if_neg h2, if_neg hv, if_pos hc, if_pos h3]
            rfl
        · by_cases h4 : 3 < argv.length
          · cases hp : env.parseOptions (argv.getD 3 "") with
            | error m =>
                have hcrash := parseCrash_true_convert env argv m h2' hc h4 hp
                constructor
                · rw [if_pos (Or.inr hcrash)]
                  simp only [dw_main]
                  rw [if_neg h2, if_neg hv, if_pos hc, if_neg h3, if_pos h4, hp]
                · simp only [dw_main]
                  rw [if_neg h2, if_neg hv, if_pos hc, if_neg h3, if_pos h4, hp]
                  rfl
            | ok b =>
                have hcrash := parseCrash_false_convert_ok env argv b hc hp
                constructor
                · rw [if_neg (not_or.mpr ⟨h2, by simp [hcrash]⟩)]
                  simp only [dw_main]
                  rw [if_neg h2, if_neg hv, if_pos hc, if_neg h3, if_pos h4, hp]
                · simp only [dw_main]
                  rw [if_neg h2, if_neg hv, if_pos hc, if_neg h3, if_pos h4, hp]
                  rfl
          · have hcrash := parseCrash_false_of_len env argv h4
            constructor
            · rw [if_neg (not_or.mpr ⟨h2, by simp [hcrash]⟩)]
              simp only [dw_main]
              rw [if_neg h2, if_neg hv, if_pos hc, if_neg h3, if_neg h4]
            · simp only [dw_main]
              rw [if_neg h2, if_neg hv, if_pos hc, if_neg h3, if_neg h4]
              rfl
      · by_cases he : argv.getD 1 "" = "extract"
        · by_cases h3 : argv.length < 3
          · have hcrash := parseCrash_false_of_len env argv (by omega)
            constructor
            · rw [if_neg (not_or.mpr ⟨h2, by simp [hcrash]⟩)]
              simp only [dw_main]
              rw [if_neg h2, if_neg hv, if_neg hc, if_pos he, if_pos h3]
            · simp only [dw_main]
              rw [if_neg h2, if_neg hv, if_neg hc, if_pos he, if_pos h3]
              rfl
          · by_cases h4 : 3 < argv.length
            · cases hp : env.parseTopics (argv.getD 3 "") with
              | error m =>
                  have hcrash := parseCrash_true_extract env argv m h2' he h4 hp
                  constructor
                  · rw [if_pos (Or.inr hcrash)]
                    simp only [dw_main]
                    rw [if_neg h2, if_neg hv, if_neg hc, if_pos he, if_neg h3,
                      if_pos h4, hp]
                  · simp only [dw_main]
                    rw [if_neg h2, if_neg hv, if_neg hc, if_pos he, if_neg h3,
                      if_pos h4, hp]
                    rfl
              | ok u =>
                  have hce2 : ¬ argv.getD 1 "" = "convert" := hc
                  have hcrash : parseCrash env argv = false := by
                    simp only [parseCrash, decide_eq_false hc, hp, errs,
                      Bool.false_and, Bool.and_false, Bool.or_false, Bool.false_or]
                  constructor
                  · rw [if_neg (not_or.mpr ⟨h2, by simp [hcrash]⟩)]
                    simp only [dw_main]
                    rw [if_neg h2, if_neg hv, if_neg hc, if_pos he, if_neg h3,
                      if_pos h4, hp]
                  · simp only [dw_main]
                    rw [if_neg h2, if_neg hv, if_neg hc, if_pos he, if_neg h3,
                      if_pos h4, hp]
                    rfl
            · have hcrash := parseCrash_false_of_len env argv h4
              constructor
              · rw [if_neg (not_or.mpr ⟨h2, by simp [hcrash]⟩)]
                simp only [dw_main]
                rw [if_neg h2, if_neg hv, if_neg hc, if_pos he, if_neg h3, if_neg h4]
              · simp only [dw_main]
                rw [if_neg h2, if_neg hv, if_neg hc, if_pos he, if_neg h3, if_neg h4]
                rfl
        · have hcrash := parseCrash_false_of_ops env argv hc he
          constructor
          · rw [if_neg (not_or.mpr ⟨h2, by simp [hcrash]⟩)]
            simp only [dw_main]
            rw [if_neg h2, if_neg hv, if_neg hc, if_neg he]
          · simp only [dw_main]
            rw [if_neg h2, if_neg hv, if_neg hc, if_neg he]
            rfl

lemma dw_main_unknown (env : MainEnv) (argv : List String)
    (h2 : 2 ≤ argv.length) (hv : ¬ argv.getD 1 "" = "--version")
    (hc : ¬ argv.getD 1 "" = "convert") (he : ¬ argv.getD 1 "" = "extract") :
    dw_main env argv =
      (0, some { JRec.empty with
                 error := some ("Unknown operation: " ++ argv.getD 1 "") }) := by
  have h2' : ¬ argv.length < 2 := by omega
  simp only [dw_main]
  rw [if_neg h2', if_neg hv, if_neg hc, if_neg he]

end DW

namespace SW

lemma sw_parseCrash_false_of_ops (env : MainEnv) (argv : List String)
    (hcv : ¬ argv.getD 1 "" = "convert") (hce : ¬ argv.getD 1 "" = "extract") :
    parseCrash env argv = false := by
  simp only [parseCrash, decide_eq_false hcv, decide_eq_false hce,
    Bool.false_and, Bool.or_false, Bool.and_false]

lemma sw_parseCrash_false_of_len (env : MainEnv) (argv : List String)
    (h4 : ¬ 3 < argv.length) :
    parseCrash env argv = false := by
  simp only [parseCrash, decide_eq_false h4, Bool.and_false, Bool.false_and,
    Bool.or_false]

lemma sw_parseCrash_false_convert_ok (env : MainEnv) (argv : List String) (u : Unit)
    (hc : argv.getD 1 "" = "convert")
    (hp : env.parseOptions (argv.getD 3 "") = .ok u) :
    parseCrash env argv = false := by
  have hce : ¬ argv.getD 1 "" = "extract" := by rw [hc]; decide
  simp only [parseCrash, hp, errs, decide_eq_false hce, Bool.and_false,
    Bool.false_and, Bool.or_false]

lemma sw_parseCrash_false_extract_ok (env : MainEnv) (argv : List String) (u : Unit)
    (he : argv.getD 1 "" = "extract")
    (hp : env.parseTopics (argv.getD 3 "") = .ok u) :
    parseCrash env argv = false := by
  have hcv : ¬ argv.getD 1 "" = "convert" := by rw [he]; decide
  simp only [parseCrash, hp, errs, decide_eq_false hcv, Bool.and_false,
    Bool.false_and, Bool.or_false, Bool.false_or]

lemma sw_parseCrash_true_convert (env : MainEnv) (argv : List String) (m : String)
    (h2' : 2 ≤ argv.length) (hc : argv.getD 1 "" = "convert") (h4 : 3 < argv.length)
    (hp : env.parseOptions (argv.getD 3 "") = .error m) :
    parseCrash env argv = true := by
  simp only [parseCrash, decide_eq_true h2', decide_eq_true hc, decide_eq_true h4,
    hp, errs, Bool.true_and, Bool.true_or, Bool.and_true]

lemma sw_parseCrash_true_extract (env : MainEnv) (argv : List String) (m : String)
    (h2' : 2 ≤ argv.length) (he : argv.getD 1 "" = "extract") (h4 : 3 < argv.length)
    (hp : env.parseTopics (argv.getD 3 "") = .error m) :
    parseCrash env argv = true := by
  have hcv : ¬ argv.getD 1 "" = "convert" := by rw [he]; decide
  simp only [parseCrash, decide_eq_true h2', decide_eq_false hcv, decide_eq_true he,
    decide_eq_true h4, hp, errs, Bool.false_and, Bool.false_or, Bool.true_and,
    Bool.and_true]

lemma sw_main_exit (env : MainEnv) (argv : List String) :
    (sw_main env argv).1 =
      (if argv.length < 2 ∨ parseCrash env argv = true then 1 else 0)
    ∧ ((sw_main env argv).2 = none ↔ 2 ≤ argv.length ∧ parseCrash env argv = true) := by
  by_cases h2 : argv.length < 2
  · constructor
    · rw [if_pos (Or.inl h2)]
      simp only [sw_main]
      rw [if_pos h2]
    · simp only [sw_main]
      rw [if_pos h2]
      constructor
      · intro h
        exact absurd h (by simp)
      · intro h
        omega
  · have h2' : 2 ≤ argv.length := by omega
    by_cases hc : argv.getD 1 "" = "convert"
    · by_cases h4 : 3 < argv.length
      · cases hp : env.parseOptions (argv.getD 3 "") with
        | error m =>
            have hcrash := sw_parseCrash_true_convert env argv m h2' hc h4 hp
            constructor
            · rw [if_pos (Or.inr hcrash)]
              simp only [sw_main]
              rw [if_neg h2, if_pos hc, if_pos h4, hp]
            · simp only [sw_main]
              rw [if_neg h2, if_pos hc, if_pos h4, hp]
              simp [h2', hcrash]
        | ok u =>
            have hcrash := sw_parseCrash_false_convert_ok env argv u hc hp
            constructor
            · rw [if_neg (not_or.mpr ⟨h2, by simp [hcrash]⟩)]
              simp only [sw_main]
              rw [if_neg h2, if_pos hc, if_pos h4, hp]
            · simp only [sw_main]
              rw [if_neg h2, if_pos hc, if_pos h4, hp]
              simp [hcrash]
      · have hcrash := sw_parseCrash_false_of_len env argv h4
        constructor
        · rw [if_neg (not_or.mpr ⟨h2, by simp [hcrash]⟩)]
          simp only [sw_main]
          rw [if_neg h2, if_pos hc, if_neg h4]
        · simp only [sw_main]
          rw [if_neg h2, if_pos hc, if_neg h4]
          simp [hcrash]
    · by_cases he : argv.getD 1 "" = "extract"
      · by_cases h4 : 3 < argv.length
        · cases hp : env.parseTopics (argv.getD 3 "") with
          | error m =>
              have hcrash := sw_parseCrash_true_extract env argv m h2' he h4 hp
              constructor
              · rw [if_pos (Or.inr hcrash)]
                simp only [sw_main]
                rw [if_neg h2, if_neg hc, if_pos he, if_pos h4, hp]
              · simp only [sw_main]
                rw [if_neg h2, if_neg hc, if_pos he, if_pos h4, hp]
                simp [h2', hcrash]
          | ok u =>
              have hcrash := sw_parseCrash_false_extract_ok env argv u he hp
              constructor
              · rw [if_neg (not_or.mpr ⟨h2, by simp [hcrash]⟩)]
                simp only [sw_main]
                rw [if_neg h2, if_neg hc, if_pos he, if_pos h4, hp]
              · simp only [sw_main]
                rw [if_neg h2, if_neg hc, if_pos he, if_pos h4, hp]
                simp [hcrash]
        · have hcrash := sw_parseCrash_false_of_len env argv h4
          constructor
          · rw [if_neg (not_or.mpr ⟨h2, by simp [hcrash]⟩)]
            simp only [sw_main]
            rw [if_neg h2, if_neg hc, if_pos he, if_neg h4]
          · simp only [sw_main]
            rw [if_neg h2, if_neg hc, if_pos he, if_neg h4]
            simp [hcrash]
      · have hcrash := sw_parseCrash_false_of_ops env argv hc he
        constructor
        · rw [if_neg (not_or.mpr ⟨h2, by simp [hcrash]⟩)]
          simp only [sw_main]
          rw [if_neg h2, if_neg hc, if_neg he]
        · simp only [sw_main]
          rw [if_neg h2, if_neg hc, if_neg he]
          simp [hcrash]

lemma sw_main_unknown (env : MainEnv) (argv : List String)
    (h2 : 2 ≤ argv.length)
    (hc : ¬ argv.getD 1 "" = "convert") (he : ¬ argv.getD 1 "" = "extract") :
    sw_main env argv =
      (0, some (error_response ("Unknown operation: " ++ argv.getD 1 ""))) := by
  have h2' : ¬ argv.length < 2 := by omega
  simp only [sw_main]
  rw [if_neg h2', if_neg hc, if_neg he]

end SW

/-- C8 counterexample.  The scripts wrapper has no top-level exception
handler: on a convert invocation whose options argument fails to parse as
JSON, the process exits 1 — although the operation and its arguments are
present, so this is not a missing-operation/argument usage error — and
nothing (in particular no JSON document) is written to stdout. -/
theorem c8_counterexample :
    (SW.sw_main
        ⟨true, .ok "m" [] 1 [], .ok "m" [] 1 [],
         fun _ => Except.error "Expecting value", fun _ => Except.error "Expecting value"⟩
        ["docling_wrapper.py", "convert", "f.pdf", "notjson"]).1 = 1
  ∧ ¬ (["docling_wrapper.py", "convert", "f.pdf", "notjson"] : List String).length < 2
  ∧ (SW.sw_main
        ⟨true, .ok "m" [] 1 [], .ok "m" [] 1 [],
         fun _ => Except.error "Expecting value", fun _ => Except.error "Expecting value"⟩
        ["docling_wrapper.py", "convert", "f.pdf", "notjson"]).2 = none := by
  refine ⟨by decide, by decide, by decide⟩

/-- C8 (amended).  Exit-code and stdout contract of the three entry points:
the OCR wrapper exits 1 exactly on the missing-argument usage error and
always prints one JSON document; the apps wrapper exits 1 exactly on the
missing-operation usage error or when its top-level handler catches an
exception (malformed JSON argument) — still printing one JSON document —
and an unknown operation yields an error object with exit 0; the scripts
wrapper exits 1 exactly on the missing-operation usage error or an uncaught
JSON-parse exception, in which latter case NO JSON document is printed, and
an unknown operation yields an error object with exit 0.  In every other
case the exit code is 0, even when the printed payload reports
`success: false`. -/
theorem c8_exit_code_contract :
    ∀ (env : OW.OcrEnv) (extractOk : Bool) (extractErr : String) (pages : List OW.Page)
      (denv : DW.MainEnv) (senv : SW.MainEnv) (argv : List String),
      (OW.ocr_main env extractOk extractErr pages argv).1 =
        (if argv.length < 2 then 1 else 0)
    ∧ (OW.ocr_main env extractOk extractErr pages argv).2.isSome = true
    ∧ (DW.dw_main denv argv).1 =
        (if argv.length < 2 ∨ DW.parseCrash denv argv = true then 1 else 0)
    ∧ (DW.dw_main denv argv).2.isSome = true
    ∧ (2 ≤ argv.length → ¬ argv.getD 1 "" = "--version" →
        ¬ argv.getD 1 "" = "convert" → ¬ argv.getD 1 "" = "extract" →
        DW.dw_main denv argv =
          (0, some { JRec.empty with
                     error := some ("Unknown operation: " ++ argv.getD 1 "") }))
    ∧ (SW.sw_main senv argv).1 =
        (if argv.length < 2 ∨ SW.parseCrash senv argv = true then 1 else 0)
    ∧ ((SW.sw_main senv argv).2 = none ↔
        2 ≤ argv.length ∧ SW.parseCrash senv argv = true)
    ∧ (2 ≤ argv.length →
        ¬ argv.getD 1 "" = "convert" → ¬ argv.getD 1 "" = "extract" →
        SW.sw_main senv argv =
          (0, some (SW.error_response ("Unknown operation: " ++ argv.getD 1 "")))) := by
  intro env extractOk extractErr pages denv senv argv
  exact ⟨(OW.ocr_main_exit env extractOk extractErr pages argv).1,
    (OW.ocr_main_exit env extractOk extractErr pages argv).2,
    (DW.dw_main_exit denv argv).1,
    (DW.dw_main_exit denv argv).2,
    DW.dw_main_unknown denv argv,
    (SW.sw_main_exit senv argv).1,
    (SW.sw_main_exit senv argv).2,
    SW.sw_main_unknown senv argv⟩

/-- Witness for C8 (amended): an unknown operation on the scripts wrapper
yields the error object with exit code 0. -/
theorem c8_exit_code_contract_witness :
    SW.sw_main ⟨true, .ok "m" [] 1 [], .ok "m" [] 1 [], fun _ => .ok (), fun _ => .ok ()⟩
        ["docling_wrapper.py", "bogus"] =
      (0, some (SW.error_response ("Unknown operation: " ++ "bogus"))) := by
  have h := (c8_exit_code_contract ⟨false, "", true, "", "", true⟩ true "" []
      ⟨true, .exn "e", .exn "e", .ok, fun _ => .ok true, fun _ => .ok ()⟩
      ⟨true, .ok "m" [] 1 [], .ok "m" [] 1 [], fun _ => .ok (), fun _ => .ok ()⟩
      ["docling_wrapper.py", "bogus"]).2.2.2.2.2.2.2
    (by decide) (by decide) (by decide)
  exact h.trans (by decide)
